import Mathlib

/-!
Shallow embedding of the OpenRouter language-model provider
(`crates/language_models/src/provider/openrouter.rs`): the credential
state machine (`State` and its `authenticate` / `set_api_key` /
`reset_api_key` operations), the request rate limiter it constructs, and
the streaming-completion event contract.

Asynchronous store and environment I/O is embedded by passing the result
of each external interaction (environment lookup, store read, store
write, store delete) as an explicit argument, and by returning, next to
the new state and the operation's result, the list of observable events
(store accesses, log lines, observer notifications) the operation
performs, in order.
-/

namespace OpenRouterProvider

/-- One byte of a stored credential blob, `0 ≤ b ≤ 255`. -/
abbrev Byte := Nat

/-- Is `b` a UTF-8 continuation byte (`0x80..0xBF`)? -/
def isCont (b : Byte) : Bool := 0x80 ≤ b && b ≤ 0xBF

/-- UTF-8 decoding of a byte list, mirroring the validity rules of Rust's
`String::from_utf8` (RFC 3629): rejects overlong encodings, surrogate
code points and values above `0x10FFFF`. Returns the decoded characters,
or `none` when the bytes are not valid UTF-8. -/
def utf8Decode : List Byte → Option (List Char)
  | [] => some []
  | b :: rest =>
    if b ≤ 0x7F then
      (utf8Decode rest).map (Char.ofNat b :: ·)
    else if 0xC2 ≤ b && b ≤ 0xDF then
      match rest with
      | b1 :: rest2 =>
        if isCont b1 then
          (utf8Decode rest2).map (Char.ofNat ((b - 0xC0) * 64 + (b1 - 0x80)) :: ·)
        else none
      | [] => none
    else if 0xE0 ≤ b && b ≤ 0xEF then
      match rest with
      | b1 :: b2 :: rest3 =>
        if (if b = 0xE0 then 0xA0 ≤ b1 && b1 ≤ 0xBF
            else if b = 0xED then 0x80 ≤ b1 && b1 ≤ 0x9F
            else isCont b1) && isCont b2 then
          (utf8Decode rest3).map
            (Char.ofNat ((b - 0xE0) * 4096 + (b1 - 0x80) * 64 + (b2 - 0x80)) :: ·)
        else none
      | _ => none
    else if 0xF0 ≤ b && b ≤ 0xF4 then
      match rest with
      | b1 :: b2 :: b3 :: rest4 =>
        if (if b = 0xF0 then 0x90 ≤ b1 && b1 ≤ 0xBF
            else if b = 0xF4 then 0x80 ≤ b1 && b1 ≤ 0x8F
            else isCont b1) && isCont b2 && isCont b3 then
          (utf8Decode rest4).map
            (Char.ofNat ((b - 0xF0) * 262144 + (b1 - 0x80) * 4096
              + (b2 - 0x80) * 64 + (b3 - 0x80)) :: ·)
        else none
      | _ => none
    else none

/-- `String::from_utf8` on a byte list: the decoded string, or `none` on
invalid UTF-8 (the `Err(FromUtf8Error)` case). -/
def decodeUtf8String (bytes : List Byte) : Option String :=
  (utf8Decode bytes).map (fun cs => String.mk cs)

/-- `const OPENROUTER_API_KEY_VAR: &str = "OPENROUTER_API_KEY"`. -/
def OPENROUTER_API_KEY_VAR : String := "OPENROUTER_API_KEY"

/-- `struct State { api_key: Option<String>, api_key_from_env: bool, .. }`
(the `_subscription` field carries no data relevant to the state machine). -/
structure State where
  api_key : Option String
  api_key_from_env : Bool
deriving DecidableEq, Repr

/-- `State::is_authenticated`: `self.api_key.is_some()`. -/
def State.is_authenticated (s : State) : Bool :=
  s.api_key.isSome

/-- The state built in `OpenRouterLanguageModelProvider::new`:
`api_key: None, api_key_from_env: false`. -/
def initialState : State :=
  { api_key := none, api_key_from_env := false }

/-- Observable external interactions of a credential operation, in the
order the Rust code performs them. -/
inductive Event where
  | envRead (var : String)
  | storeRead (key : String)
  | storeWrite (key label : String) (value : String)
  | storeDelete (key : String)
  | logged
  | notify
deriving DecidableEq, Repr

/-- Result of `credentials_provider.read_credentials(&api_url, ..)`:
`Ok(Some((metadata, bytes)))`, `Ok(None)`, or an I/O error. -/
inductive StoreReadResult where
  | value (v : Option (String × List Byte))
  | ioError
deriving DecidableEq, Repr

/-- Outcome of `credentials_provider.write_credentials(..)`. -/
inductive StoreWriteResult where
  | ok
  | ioError
deriving DecidableEq, Repr

/-- Outcome of `credentials_provider.delete_credentials(..)`. -/
inductive StoreDeleteResult where
  | ok
  | ioError
deriving DecidableEq, Repr

/-- Modelled from the spec: the `AuthenticateError` type returned by
`State::authenticate` lives in the `language_model` crate, which is not
under `src/`; only its `CredentialsNotFound` constructor appears in the
source here. The spec's error taxonomy (§7 CredentialError) gives the
variants: `NotFound` (no environment variable, no stored secret),
`Malformed` (stored bytes not decodable), `StoreUnavailable` (I/O failure
talking to the secret store). -/
inductive AuthenticateError where
  | credentialsNotFound
  | malformed
  | storeUnavailable
deriving DecidableEq, Repr

/-- Result of `State::authenticate`: `Ok(())` or a typed error. -/
inductive AuthOutcome where
  | success
  | failure (e : AuthenticateError)
deriving DecidableEq, Repr

/-- Result of `State::set_api_key` / `State::reset_api_key`
(`Result<()>`; the only value produced on the modelled paths is `Ok(())`,
since store failures are swallowed by `log_err`). -/
inductive UnitOutcome where
  | ok
deriving DecidableEq, Repr

/-- `State::reset_api_key`: deletes the credentials for `api_url`
(failures logged via `log_err`, not surfaced), then sets
`api_key = None`, `api_key_from_env = false` and notifies observers. -/
def State.reset_api_key (_s : State) (deleteResult : StoreDeleteResult)
    (api_url : String) : State × UnitOutcome × List Event :=
  ({ api_key := none, api_key_from_env := false },
   UnitOutcome.ok,
   [Event.storeDelete api_url]
     ++ (if deleteResult = StoreDeleteResult.ioError then [Event.logged] else [])
     ++ [Event.notify])

/-- `State::set_api_key`: writes the key bytes to the store under
`api_url` with label `"Bearer"` (failures logged via `log_err`, not
surfaced), then sets `api_key = Some(api_key)` — leaving
`api_key_from_env` untouched — and notifies observers. -/
def State.set_api_key (s : State) (key : String)
    (writeResult : StoreWriteResult) (api_url : String) :
    State × UnitOutcome × List Event :=
  ({ s with api_key := some key },
   UnitOutcome.ok,
   [Event.storeWrite api_url "Bearer" key]
     ++ (if writeResult = StoreWriteResult.ioError then [Event.logged] else [])
     ++ [Event.notify])

/-- `State::authenticate`: returns `Ok(())` at once when already
authenticated; otherwise reads the `OPENROUTER_API_KEY` environment
variable and, only when it is unset, falls back to reading the store
under `api_url` — `Ok(None)` becomes `CredentialsNotFound`, undecodable
bytes become the malformed error, a read failure propagates — then
adopts the resolved key with `api_key_from_env` recording its origin and
notifies observers. -/
def State.authenticate (s : State) (env : Option String)
    (storeResult : StoreReadResult) (api_url : String) :
    State × AuthOutcome × List Event :=
  if s.is_authenticated then
    (s, AuthOutcome.success, [])
  else
    match env with
    | some key =>
        ({ api_key := some key, api_key_from_env := true },
         AuthOutcome.success,
         [Event.envRead OPENROUTER_API_KEY_VAR, Event.notify])
    | none =>
        match storeResult with
        | StoreReadResult.ioError =>
            (s, AuthOutcome.failure AuthenticateError.storeUnavailable,
             [Event.envRead OPENROUTER_API_KEY_VAR, Event.storeRead api_url])
        | StoreReadResult.value none =>
            (s, AuthOutcome.failure AuthenticateError.credentialsNotFound,
             [Event.envRead OPENROUTER_API_KEY_VAR, Event.storeRead api_url])
        | StoreReadResult.value (some (_, bytes)) =>
            match decodeUtf8String bytes with
            | none =>
                (s, AuthOutcome.failure AuthenticateError.malformed,
                 [Event.envRead OPENROUTER_API_KEY_VAR, Event.storeRead api_url])
            | some key =>
                ({ api_key := some key, api_key_from_env := false },
                 AuthOutcome.success,
                 [Event.envRead OPENROUTER_API_KEY_VAR, Event.storeRead api_url,
                  Event.notify])

/-- States reachable from the provider's initial state by any sequence of
credential operations, under arbitrary environment and store behavior. -/
inductive Reachable : State → Prop where
  | init : Reachable initialState
  | auth (s : State) (env : Option String) (storeResult : StoreReadResult)
      (api_url : String) (h : Reachable s) :
      Reachable (s.authenticate env storeResult api_url).1
  | set (s : State) (key : String) (writeResult : StoreWriteResult)
      (api_url : String) (h : Reachable s) :
      Reachable (s.set_api_key key writeResult api_url).1
  | reset (s : State) (deleteResult : StoreDeleteResult) (api_url : String)
      (h : Reachable s) :
      Reachable (s.reset_api_key deleteResult api_url).1

/-- Modelled from the spec: the `RateLimiter` used as `request_limiter`
comes from the `language_model` crate, which is not under `src/`; the
source here only constructs it with `RateLimiter::new(4)`. Per §4.2 /
§3 RateLimiterState it is a counting semaphore:
`{ capacity (fixed at construction), in_flight, waiters (ordered queue) }`. -/
structure RateLimiterState where
  capacity : Nat
  in_flight : Nat
  waiters : List Nat
deriving DecidableEq, Repr

/-- Modelled from the spec: `RateLimiter::new(capacity)` — no requests in
flight, no waiters. -/
def RateLimiterState.new (capacity : Nat) : RateLimiterState :=
  { capacity := capacity, in_flight := 0, waiters := [] }

/-- The capacity the source passes at construction:
`request_limiter: RateLimiter::new(4)` in
`OpenRouterLanguageModelProvider::default_model`. -/
def requestLimiterCapacity : Nat := 4

/-- The request limiter as constructed in `default_model`. -/
def initialLimiter : RateLimiterState :=
  RateLimiterState.new requestLimiterCapacity

/-- Whether an `acquire` call got its permit at once or was enqueued. -/
inductive AcquireOutcome where
  | granted
  | suspended
deriving DecidableEq, Repr

/-- Modelled from the spec (§4.2): `acquire()` grants immediately and
increments `in_flight` when `in_flight < capacity`; otherwise the caller
(identified by `id`) is appended to the waiter queue and suspends. -/
def RateLimiterState.acquire (s : RateLimiterState) (id : Nat) :
    RateLimiterState × AcquireOutcome :=
  if s.in_flight < s.capacity then
    ({ s with in_flight := s.in_flight + 1 }, AcquireOutcome.granted)
  else
    ({ s with waiters := s.waiters ++ [id] }, AcquireOutcome.suspended)

/-- Modelled from the spec (§4.2): permit release — when waiters are
pending the freed slot goes to the head of the queue (so `in_flight` is
unchanged and that waiter is granted), otherwise `in_flight` decrements. -/
def RateLimiterState.release (s : RateLimiterState) :
    RateLimiterState × Option Nat :=
  match s.waiters with
  | [] => ({ s with in_flight := s.in_flight - 1 }, none)
  | w :: rest => ({ s with waiters := rest }, some w)

/-- State and per-call outcomes of a sequence of `acquire` calls made in
arrival order. -/
def RateLimiterState.acquireSeq (s : RateLimiterState) (ids : List Nat) :
    RateLimiterState × List AcquireOutcome :=
  match ids with
  | [] => (s, [])
  | id :: rest =>
      let p := s.acquire id
      let q := p.1.acquireSeq rest
      (q.1, p.2 :: q.2)

/-- The waiters granted by `n` successive releases, in grant order. -/
def RateLimiterState.releaseGrants (s : RateLimiterState) (n : Nat) :
    List Nat :=
  match n with
  | 0 => []
  | Nat.succ m =>
      let p := s.release
      (match p.2 with
       | some w => [w]
       | none => []) ++ p.1.releaseGrants m

/-- Modelled from the spec: `stream_completion`'s body in the source is
an unimplemented stub (`todo!()`); §4.3 / §3 CompletionEvent give the
event alphabet of the streaming protocol. -/
inductive CompletionEvent where
  | textDelta (text : String)
  | toolCallRequested (name arguments : String)
  | usageReport (prompt_tokens completion_tokens : Nat)
  | stopped (reason : String)
deriving DecidableEq, Repr

/-- Modelled from the spec (§4.3 parsing contract): each upstream chunk
decodes to zero or more `CompletionEvent`s in arrival order, and the
stream's events are those decoded events, chunk after chunk. An upstream
chunk is embedded as the event list it decodes to. -/
def streamCompletion (upstream : List (List CompletionEvent)) :
    List CompletionEvent :=
  upstream.flatten

/-- The payloads of the `textDelta` events of a stream, in stream order. -/
def textDeltas : List CompletionEvent → List String
  | [] => []
  | CompletionEvent.textDelta t :: rest => t :: textDeltas rest
  | _ :: rest => textDeltas rest

/-- Concatenation of a stream's `textDelta` payloads. -/
def concatText (events : List CompletionEvent) : String :=
  String.join (textDeltas events)

/-! ### Helper lemmas -/

/-- An `authenticate` run either leaves the state untouched or produces a
state that holds a key. -/
theorem authenticate_result_cases (s : State) (env : Option String)
    (storeResult : StoreReadResult) (api_url : String) :
    (s.authenticate env storeResult api_url).1 = s ∨
    (s.authenticate env storeResult api_url).1.api_key.isSome = true := by
  by_cases hauth : s.is_authenticated = true
  · left; simp [State.authenticate, hauth]
  · cases env with
    | some key => right; simp [State.authenticate, hauth]
    | none =>
        cases storeResult with
        | ioError => left; simp [State.authenticate, hauth]
        | value v =>
            cases v with
            | none => left; simp [State.authenticate, hauth]
            | some p =>
                obtain ⟨m, bytes⟩ := p
                cases hdec : decodeUtf8String bytes with
                | none => left; simp [State.authenticate, hauth, hdec]
                | some key => right; simp [State.authenticate, hauth, hdec]

/-- A failing `authenticate` run leaves the state untouched. -/
theorem authenticate_failure_frame (s : State) (env : Option String)
    (storeResult : StoreReadResult) (api_url : String) (e : AuthenticateError)
    (h : (s.authenticate env storeResult api_url).2.1 = AuthOutcome.failure e) :
    (s.authenticate env storeResult api_url).1 = s ∧
      s.is_authenticated = false := by
  by_cases hauth : s.is_authenticated = true
  · simp [State.authenticate, hauth] at h
  · refine ⟨?_, by simpa using hauth⟩
    cases env with
    | some key => simp [State.authenticate, hauth] at h
    | none =>
        cases storeResult with
        | ioError => simp [State.authenticate, hauth]
        | value v =>
            cases v with
            | none => simp [State.authenticate, hauth]
            | some p =>
                obtain ⟨m, bytes⟩ := p
                cases hdec : decodeUtf8String bytes with
                | none => simp [State.authenticate, hauth, hdec]
                | some key => simp [State.authenticate, hauth, hdec] at h

/-- While capacity remains, a burst of `acquire` calls is granted
immediately, one slot each. -/
theorem acquireSeq_all_granted (ids : List Nat) (s : RateLimiterState)
    (h : s.in_flight + ids.length ≤ s.capacity) :
    s.acquireSeq ids
      = ({ s with in_flight := s.in_flight + ids.length },
         List.replicate ids.length AcquireOutcome.granted) := by
  induction ids generalizing s with
  | nil => simp [RateLimiterState.acquireSeq]
  | cons id rest ih =>
      have hlt : s.in_flight < s.capacity := by
        simp [List.length_cons] at h; omega
      have h2 : ({ s with in_flight := s.in_flight + 1 } :
          RateLimiterState).in_flight + rest.length
          ≤ ({ s with in_flight := s.in_flight + 1 } :
          RateLimiterState).capacity := by
        simp [List.length_cons] at h ⊢; omega
      simp [RateLimiterState.acquireSeq, RateLimiterState.acquire, hlt,
        ih _ h2, List.replicate_succ]
      omega

/-- Successive releases grant the queued waiters in queue order. -/
theorem releaseGrants_fifo (n : Nat) (s : RateLimiterState) :
    s.releaseGrants n = s.waiters.take n := by
  induction n generalizing s with
  | zero => simp [RateLimiterState.releaseGrants]
  | succ m ih =>
      cases hw : s.waiters with
      | nil =>
          simp [RateLimiterState.releaseGrants, RateLimiterState.release,
            hw, ih]
      | cons w rest =>
          simp [RateLimiterState.releaseGrants, RateLimiterState.release,
            hw, ih]

/-- A stream whose chunks each decode to exactly one `textDelta` yields
those events in arrival order. -/
theorem streamCompletion_singleton_chunks (ts : List String) :
    streamCompletion (ts.map (fun t => [CompletionEvent.textDelta t]))
      = ts.map CompletionEvent.textDelta := by
  induction ts with
  | nil => rfl
  | cons t rest ih =>
      simp only [streamCompletion, List.map_cons, List.flatten_cons] at ih ⊢
      simp [ih]

/-- The `textDelta` payloads of a pure `textDelta` stream are exactly the
emitted texts, in order. -/
theorem textDeltas_map_textDelta (ts : List String) :
    textDeltas (ts.map CompletionEvent.textDelta) = ts := by
  induction ts with
  | nil => rfl
  | cons t rest ih => simp [textDeltas, ih]

/-! ### Claims -/

/-- **C1, counterexample.** The claim says that after `set(secret)` the
active credential's origin is Store (`api_key_from_env = false`)
regardless of whether the prior credential came from the environment.
On a prior state whose credential came from the environment,
`set_api_key` leaves `api_key_from_env = true`: the code assigns only
`api_key`, never `api_key_from_env`. -/
theorem C1_counterexample :
    ¬ (((State.mk (some "sk-from-env") true).set_api_key "sk-or-new"
          StoreWriteResult.ok "https://openrouter.ai/api/v1").1.api_key_from_env
        = false) := by
  decide

/-- **C1, amended.** For every prior state, `set(secret)` writes the
secret to the SecretStore as a typed "Bearer" credential keyed by the
configured endpoint URL, adopts the secret locally
(`api_key = Some(secret)`), and reports success; it leaves
`api_key_from_env` unchanged rather than forcing it to `false`, so the
adopted credential's origin reads as Store only when the prior
credential did not come from the environment. -/
theorem C1_set_writes_bearer_and_adopts (s : State) (key api_url : String)
    (w : StoreWriteResult) :
    (s.set_api_key key w api_url).1.api_key = some key ∧
    Event.storeWrite api_url "Bearer" key ∈ (s.set_api_key key w api_url).2.2 ∧
    (s.set_api_key key w api_url).1.api_key_from_env = s.api_key_from_env ∧
    (s.set_api_key key w api_url).2.1 = UnitOutcome.ok := by
  refine ⟨rfl, ?_, rfl, rfl⟩
  simp [State.set_api_key]

/-- **C2.** In the unauthenticated state with the environment variable
set, `authenticate` adopts the environment secret with
origin = Environment (`api_key_from_env = true`), succeeds, and performs
exactly an environment read and an observer notification — in
particular, it never reads the secret store. -/
theorem C2_env_authenticate_never_reads_store (s : State)
    (key api_url : String) (storeResult : StoreReadResult)
    (h : s.is_authenticated = false) :
    (s.authenticate (some key) storeResult api_url).1
        = { api_key := some key, api_key_from_env := true } ∧
    (s.authenticate (some key) storeResult api_url).1.is_authenticated = true ∧
    (s.authenticate (some key) storeResult api_url).2.1 = AuthOutcome.success ∧
    (s.authenticate (some key) storeResult api_url).2.2
        = [Event.envRead OPENROUTER_API_KEY_VAR, Event.notify] := by
  simp only [State.is_authenticated] at h
  simp [State.authenticate, State.is_authenticated, h]

/-- **C2, witness.** -/
theorem C2_env_authenticate_never_reads_store_witness :
    (initialState.authenticate (some "sk-or-env") StoreReadResult.ioError
        "https://openrouter.ai/api/v1").1
      = { api_key := some "sk-or-env", api_key_from_env := true } ∧
    (initialState.authenticate (some "sk-or-env") StoreReadResult.ioError
        "https://openrouter.ai/api/v1").1.is_authenticated = true ∧
    (initialState.authenticate (some "sk-or-env") StoreReadResult.ioError
        "https://openrouter.ai/api/v1").2.1 = AuthOutcome.success ∧
    (initialState.authenticate (some "sk-or-env") StoreReadResult.ioError
        "https://openrouter.ai/api/v1").2.2
      = [Event.envRead OPENROUTER_API_KEY_VAR, Event.notify] :=
  C2_env_authenticate_never_reads_store initialState "sk-or-env"
    "https://openrouter.ai/api/v1" StoreReadResult.ioError (by decide)

/-- **C3.** In the unauthenticated state with no environment secret:
an empty store entry fails with `CredentialsNotFound`; stored bytes that
are not valid UTF-8 fail with the malformed outcome; decodable bytes are
adopted with origin = Store and succeed; a store read failure fails with
`StoreUnavailable`; and the not-found outcome is distinguishable from
the other two in the returned value. -/
theorem C3_store_authentication_outcomes (s : State) (api_url m : String)
    (bytesBad bytesGood : List Byte) (key : String)
    (hna : s.is_authenticated = false)
    (hbad : decodeUtf8String bytesBad = none)
    (hgood : decodeUtf8String bytesGood = some key) :
    (s.authenticate none (StoreReadResult.value none) api_url).2.1
        = AuthOutcome.failure AuthenticateError.credentialsNotFound ∧
    (s.authenticate none (StoreReadResult.value (some (m, bytesBad))) api_url).2.1
        = AuthOutcome.failure AuthenticateError.malformed ∧
    (s.authenticate none (StoreReadResult.value (some (m, bytesGood))) api_url).1
        = { api_key := some key, api_key_from_env := false } ∧
    (s.authenticate none (StoreReadResult.value (some (m, bytesGood))) api_url).2.1
        = AuthOutcome.success ∧
    (s.authenticate none StoreReadResult.ioError api_url).2.1
        = AuthOutcome.failure AuthenticateError.storeUnavailable ∧
    AuthOutcome.failure AuthenticateError.credentialsNotFound
        ≠ AuthOutcome.failure AuthenticateError.malformed ∧
    AuthOutcome.failure AuthenticateError.credentialsNotFound
        ≠ AuthOutcome.failure AuthenticateError.storeUnavailable := by
  refine ⟨?_, ?_, ?_, ?_, ?_, by decide, by decide⟩ <;>
    simp [State.authenticate, hna, hbad, hgood]

/-- **C3, witness**: instantiated at the empty store, the invalid byte
`0xFF`, and the valid UTF-8 bytes of `"key"`. -/
theorem C3_store_authentication_outcomes_witness :
    (initialState.authenticate none
        (StoreReadResult.value (some ("", [255]))) "u").2.1
      = AuthOutcome.failure AuthenticateError.malformed ∧
    (initialState.authenticate none
        (StoreReadResult.value (some ("", [107, 101, 121]))) "u").1
      = { api_key := some "key", api_key_from_env := false } ∧
    (initialState.authenticate none (StoreReadResult.value none) "u").2.1
      = AuthOutcome.failure AuthenticateError.credentialsNotFound :=
  have h := C3_store_authentication_outcomes initialState "u" ""
    [255] [107, 101, 121] "key" (by decide) (by decide) (by decide)
  ⟨h.2.1, h.2.2.1, h.1⟩

/-- **C4.** `authenticate` is idempotent once authenticated: it returns
success at once with the state unchanged and an empty interaction log
(no environment or store I/O), and a second consecutive call does the
same. -/
theorem C4_authenticate_idempotent (s : State) (env : Option String)
    (storeResult : StoreReadResult) (api_url : String)
    (h : s.is_authenticated = true) :
    s.authenticate env storeResult api_url = (s, AuthOutcome.success, []) ∧
    (s.authenticate env storeResult api_url).1.authenticate env storeResult
        api_url = (s, AuthOutcome.success, []) := by
  constructor <;> simp [State.authenticate, h]

/-- **C4, witness.** -/
theorem C4_authenticate_idempotent_witness :
    (State.mk (some "sk") false).authenticate none
        (StoreReadResult.value none) "u"
      = (State.mk (some "sk") false, AuthOutcome.success, []) ∧
    ((State.mk (some "sk") false).authenticate none
        (StoreReadResult.value none) "u").1.authenticate none
        (StoreReadResult.value none) "u"
      = (State.mk (some "sk") false, AuthOutcome.success, []) :=
  C4_authenticate_idempotent (State.mk (some "sk") false) none
    (StoreReadResult.value none) "u" (by decide)

/-- **C5.** For every write outcome — including failure — `set(secret)`
adopts the secret locally, so `is_authenticated` is true right after
`set` and the caller sees success; a failed write only adds a log entry. -/
theorem C5_set_adopts_despite_write_failure (s : State)
    (key api_url : String) (w : StoreWriteResult) :
    (s.set_api_key key w api_url).1.is_authenticated = true ∧
    (s.set_api_key key w api_url).2.1 = UnitOutcome.ok ∧
    Event.logged ∈ (s.set_api_key key StoreWriteResult.ioError api_url).2.2 := by
  refine ⟨rfl, rfl, ?_⟩
  simp [State.set_api_key]

/-- **C6.** For every prior state and origin, `reset()` clears the local
state to unauthenticated (`api_key = None`, `api_key_from_env = false`),
reports success even when the best-effort store delete fails (the
failure only adds a log entry), notifies observers unconditionally, and
a subsequent `authenticate` with no environment variable and an empty
store fails with `CredentialsNotFound`. -/
theorem C6_reset_clears_and_notifies (s : State) (d : StoreDeleteResult)
    (api_url url2 : String) :
    (s.reset_api_key d api_url).1
        = { api_key := none, api_key_from_env := false } ∧
    (s.reset_api_key d api_url).2.1 = UnitOutcome.ok ∧
    Event.notify ∈ (s.reset_api_key d api_url).2.2 ∧
    Event.storeDelete api_url ∈ (s.reset_api_key d api_url).2.2 ∧
    Event.logged ∈ (s.reset_api_key StoreDeleteResult.ioError api_url).2.2 ∧
    ((s.reset_api_key d api_url).1.authenticate none
        (StoreReadResult.value none) url2).2.1
      = AuthOutcome.failure AuthenticateError.credentialsNotFound := by
  refine ⟨rfl, rfl, ?_, ?_, ?_, ?_⟩ <;>
    cases d <;>
      simp [State.reset_api_key, State.authenticate, State.is_authenticated]

/-- **C7.** Stream events preserve upstream arrival order and
`textDelta` events are concatenation-ordered: a stream whose upstream
chunks each decode to one `textDelta` yields those events in emission
order, and concatenating their payloads reconstructs the full text; in
particular the upstream chunks `["He", "llo"]` yield events in emission
order whose concatenation is `"Hello"`. -/
theorem C7_textdelta_order_and_concatenation (ts : List String) :
    streamCompletion (ts.map (fun t => [CompletionEvent.textDelta t]))
        = ts.map CompletionEvent.textDelta ∧
    concatText (streamCompletion (ts.map (fun t => [CompletionEvent.textDelta t])))
        = String.join ts ∧
    streamCompletion [[CompletionEvent.textDelta "He"],
        [CompletionEvent.textDelta "llo"]]
      = [CompletionEvent.textDelta "He", CompletionEvent.textDelta "llo"] ∧
    concatText [CompletionEvent.textDelta "He", CompletionEvent.textDelta "llo"]
      = "Hello" := by
  refine ⟨streamCompletion_singleton_chunks ts, ?_, by decide, by decide⟩
  rw [streamCompletion_singleton_chunks, concatText, textDeltas_map_textDelta]

/-- **C8.** The request dispatcher constructed in `default_model` is a
counting semaphore of fixed capacity 4 with FIFO fairness: any `k ≤ 4`
simultaneous `acquire` calls are all granted immediately, leaving
exactly `k ≤ 4` requests in flight; a 5th `acquire` suspends, and the
next `release` grants precisely that suspended caller; in general `n`
releases grant the first `n` queued waiters in arrival order, and
`acquire`/`release` never push `in_flight` above capacity. -/
theorem C8_dispatcher_counting_semaphore (ids ids4 : List Nat) (w : Nat)
    (s : RateLimiterState) (n : Nat)
    (hlen : ids.length ≤ 4) (hlen4 : ids4.length = 4)
    (hs : s.in_flight ≤ s.capacity) :
    initialLimiter.capacity = 4 ∧
    (initialLimiter.acquireSeq ids).2
        = List.replicate ids.length AcquireOutcome.granted ∧
    (initialLimiter.acquireSeq ids).1.in_flight = ids.length ∧
    (initialLimiter.acquireSeq ids).1.in_flight ≤ 4 ∧
    ((initialLimiter.acquireSeq ids4).1.acquire w).2 = AcquireOutcome.suspended ∧
    ((initialLimiter.acquireSeq ids4).1.acquire w).1.release.2 = some w ∧
    s.releaseGrants n = s.waiters.take n ∧
    (s.acquire w).1.in_flight ≤ s.capacity ∧
    s.release.1.in_flight ≤ s.capacity := by
  have hcap : initialLimiter.capacity = 4 := rfl
  have hinit : initialLimiter.in_flight = 0 := rfl
  have hseq := acquireSeq_all_granted ids initialLimiter
    (by rw [hcap, hinit]; omega)
  have hseq4 := acquireSeq_all_granted ids4 initialLimiter
    (by rw [hcap, hinit]; omega)
  refine ⟨hcap, by rw [hseq],
    by rw [hseq]; simp [initialLimiter, RateLimiterState.new],
    by rw [hseq]; simpa [initialLimiter, RateLimiterState.new] using hlen,
    ?_, ?_, releaseGrants_fifo n s, ?_, ?_⟩
  · rw [hseq4]
    simp [RateLimiterState.acquire, initialLimiter, RateLimiterState.new,
      requestLimiterCapacity, hlen4]
  · rw [hseq4]
    simp [RateLimiterState.acquire, RateLimiterState.release, initialLimiter,
      RateLimiterState.new, requestLimiterCapacity, hlen4]
  · unfold RateLimiterState.acquire
    split
    · rename_i hlt; simpa using hlt
    · simpa using hs
  · unfold RateLimiterState.release
    cases hw : s.waiters with
    | nil => simp; omega
    | cons x rest => simpa using hs

/-- **C8, witness.** -/
theorem C8_dispatcher_counting_semaphore_witness :
    ((initialLimiter.acquireSeq [1, 2, 3, 4]).1.acquire 5).2
        = AcquireOutcome.suspended ∧
    ((initialLimiter.acquireSeq [1, 2, 3, 4]).1.acquire 5).1.release.2
        = some 5 ∧
    (RateLimiterState.mk 4 4 [7, 8]).releaseGrants 2 = [7, 8] :=
  have h := C8_dispatcher_counting_semaphore [1, 2, 3] [1, 2, 3, 4] 5
    (RateLimiterState.mk 4 4 [7, 8]) 2 (by decide) (by decide) (by decide)
  ⟨h.2.2.2.2.1, h.2.2.2.2.2.1, by
    rw [h.2.2.2.2.2.2.1]; rfl⟩

/-- **C9.** Invariant of the credential state machine: from the initial
state, no sequence of `authenticate` / `set_api_key` / `reset_api_key`
operations — under any environment and store behavior — reaches a state
with `api_key_from_env = true` but no key: whenever the origin flag is
set, a key is held. -/
theorem C9_origin_flag_implies_key (s : State) (hs : Reachable s)
    (henv : s.api_key_from_env = true) : s.api_key.isSome = true := by
  induction hs with
  | init => simp [initialState] at henv
  | auth s env storeResult api_url h ih =>
      rcases authenticate_result_cases s env storeResult api_url with heq | hk
      · rw [heq] at henv ⊢; exact ih henv
      · exact hk
  | set s key writeResult api_url h ih =>
      simp [State.set_api_key]
  | reset s deleteResult api_url h ih =>
      simp [State.reset_api_key] at henv

/-- **C9, witness**: the invariant applied to the reachable state
produced by an environment-sourced `authenticate` from the initial
state. -/
theorem C9_origin_flag_implies_key_witness :
    (initialState.authenticate (some "sk-or-env")
        (StoreReadResult.value none) "u").1.api_key.isSome = true :=
  C9_origin_flag_implies_key _
    (Reachable.auth initialState (some "sk-or-env")
      (StoreReadResult.value none) "u" Reachable.init)
    (by decide)

/-- **C10.** `authenticate` is atomic on failure: any run that returns
an error leaves the local state unchanged — the starting state was
unauthenticated, the key is still absent, the origin flag is untouched,
and `is_authenticated` still reads false. -/
theorem C10_authenticate_atomic_on_failure (s : State) (env : Option String)
    (storeResult : StoreReadResult) (api_url : String) (e : AuthenticateError)
    (h : (s.authenticate env storeResult api_url).2.1 = AuthOutcome.failure e) :
    (s.authenticate env storeResult api_url).1 = s ∧
    s.is_authenticated = false ∧
    (s.authenticate env storeResult api_url).1.api_key = none ∧
    (s.authenticate env storeResult api_url).1.api_key_from_env
        = s.api_key_from_env ∧
    (s.authenticate env storeResult api_url).1.is_authenticated = false := by
  obtain ⟨heq, hna⟩ := authenticate_failure_frame s env storeResult api_url e h
  have hnone : s.api_key = none := by
    cases hk : s.api_key with
    | none => rfl
    | some v => rw [State.is_authenticated, hk] at hna; simp at hna
  exact ⟨heq, hna, by rw [heq, hnone], by rw [heq], by rw [heq]; exact hna⟩

/-- **C10, witness**: instantiated at the not-found failure from the
initial state. -/
theorem C10_authenticate_atomic_on_failure_witness :
    (initialState.authenticate none (StoreReadResult.value none) "u").1
        = initialState ∧
    (initialState.authenticate none
        (StoreReadResult.value none) "u").1.is_authenticated = false :=
  have h := C10_authenticate_atomic_on_failure initialState none
    (StoreReadResult.value none) "u" AuthenticateError.credentialsNotFound
    (by decide)
  ⟨h.1, h.2.2.2.2⟩
